import Mathlib

/-!
Shallow embedding of `server.js` from the Salesforce-MetaData repository:
the `/create-metadata` request validator, the metadata-XML generators
(`generateObjectMetadata`, `generateFieldsMetadata`, `generateFieldXml`,
`getFieldType`, `generatePackageXml`) and the handler's side-effect and
response structure.  JavaScript values reaching the validator are modelled
as optional strings (absence or emptiness is falsy, mirroring `!x` on a
string), the `fields` member as either an array of entries or some
non-array value, and file-system / subprocess activity as an explicit
effect list.  The `typeMap[type]` access models the prototype chain: a
name of an `Object.prototype` member yields that inherited truthy value,
not the `'Text'` fallback.  Node's `path.join` normalisation of `./` is
not modelled; paths are plain `/`-joined strings.
-/

namespace SfMeta

/-- A field object as consumed by the generators (`field.name`,
`field.label`, `field.type` in `server.js`). -/
structure Field where
  name : String
  label : String
  type : String
deriving DecidableEq

/-- A raw field entry of the request body; each member may be absent. -/
structure FieldEntry where
  name : Option String
  label : Option String
  type : Option String
deriving DecidableEq

/-- The JSON value bound to `fields`: an array of entries, or some
non-array value (any other JSON value). -/
inductive FieldsVal where
  | arr (entries : List FieldEntry)
  | nonArray
deriving DecidableEq

/-- The parsed request body destructured at `server.js:26`:
`const { objectName, fields, orgAlias } = req.body`. -/
structure Body where
  objectName : Option String
  fields : Option FieldsVal
  orgAlias : Option String
deriving DecidableEq

/-- JavaScript truthiness of an optional string: absent and `""` are
falsy, every other string is truthy. -/
def truthy : Option String → Bool
  | none => false
  | some s => !s.isEmpty

/-- `Array.isArray(fields)` combined with presence: only an actual array
value (possibly empty) passes, matching `!fields || !Array.isArray(fields)`
at `server.js:29` (a falsy or non-array `fields` fails either way). -/
def isFieldsArray : Option FieldsVal → Bool
  | some (.arr _) => true
  | _ => false

/-- The entries of the `fields` array (empty for the non-array cases,
which never reach the places using this). -/
def bodyEntries (b : Body) : List FieldEntry :=
  match b.fields with
  | some (.arr l) => l
  | _ => []

/-- The per-entry check of the loop at `server.js:44`:
`!field.name || !field.label || !field.type`. -/
def entryBad (f : FieldEntry) : Bool :=
  !truthy f.name || !truthy f.label || !truthy f.type

/-- The validation of `server.js:29-51`: returns the 400 message of the
first failing check, or `none` when the request passes. -/
def validateRequest (b : Body) : Option String :=
  if !truthy b.objectName || !isFieldsArray b.fields then
    some "Object name and fields array are required"
  else if !truthy b.orgAlias then
    some "orgAlias is required"
  else if (bodyEntries b).any entryBad then
    some "Each field must have name, label, and type properties"
  else
    none

/-- The type map of `getFieldType` (`server.js:232-243`). -/
def typeMap : List (String × String) :=
  [("Text", "Text"), ("TextArea", "TextArea"), ("Date", "Date"),
   ("DateTime", "DateTime"), ("Number", "Number"), ("Checkbox", "Checkbox"),
   ("Picklist", "Picklist"), ("Email", "Email"), ("Phone", "Phone"),
   ("URL", "Url")]

/-- The property names a `typeMap[type]` access finds on
`Object.prototype` when `type` is not an own key: JavaScript property
access consults the prototype chain, and these are the standard
`Object.prototype` members, each bound to a truthy function (or, for
`__proto__`, object) value. -/
def protoKeys : List String :=
  ["constructor", "hasOwnProperty", "isPrototypeOf", "propertyIsEnumerable",
   "toLocaleString", "toString", "valueOf", "__proto__", "__defineGetter__",
   "__defineSetter__", "__lookupGetter__", "__lookupSetter__"]

/-- The JavaScript value `typeMap[type] || 'Text'` evaluates to: either a
string (an own-key hit, or the `'Text'` fallback), or a truthy value
inherited from `Object.prototype` — which is never `===` to any case
string of the switch in `generateFieldXml`. -/
inductive JsVal where
  | str (s : String)
  | inheritedProp (key : String)
deriving DecidableEq

/-- Template-literal coercion of an inherited `Object.prototype` member,
as Node (V8) renders it: `__proto__` resolves to `Object.prototype`
itself, printing `[object Object]`; every other member is a function
printing its source stub, the `constructor` hit being the function named
`Object`. -/
def inheritedInterp (key : String) : String :=
  if key = "__proto__" then "[object Object]"
  else "function " ++ (if key = "constructor" then "Object" else key) ++
    "() \x7b [native code] \x7d"

/-- String coercion of the looked-up value, as `$\x7bfieldType\x7d`
interpolation performs it. -/
def JsVal.interp : JsVal → String
  | .str s => s
  | .inheritedProp key => inheritedInterp key

/-- `getFieldType` (`server.js:231-246`): `return typeMap[type] || 'Text'`.
Property access consults the prototype chain: an own key yields its
mapped string; the name of an `Object.prototype` member yields that
inherited truthy value, so the `|| 'Text'` fallback does not fire;
any other string yields `undefined`, which is falsy, giving `'Text'`. -/
def getFieldType (type : String) : JsVal :=
  match typeMap.lookup type with
  | some v => .str v
  | none => if type ∈ protoKeys then .inheritedProp type else .str "Text"

/-- The `baseXml` prelude of every field fragment (`server.js:160-163`). -/
def fieldBase (field : Field) (fieldType : String) : String :=
  "    <fields>\n        <fullName>" ++ field.name ++
  "__c</fullName>\n        <label>" ++ field.label ++
  "</label>\n        " ++ ("<type>" ++ fieldType ++ "</type>")

/-- Attributes of the `'Text'` case and of the `default` case
(`server.js:166-170, 222-226`): length 255, optional. -/
def shortTextAttrs : String :=
  "\n        <length>255</length>\n        <required>false</required>\n    </fields>"

/-- Attributes of the `'TextArea'` case (`server.js:172-177`). -/
def longTextAttrs : String :=
  "\n        <length>32768</length>\n        <visibleLines>3</visibleLines>\n        <required>false</required>\n    </fields>"

/-- Attributes of the `'Date'` and `'DateTime'` cases
(`server.js:179-187`). -/
def requiredOnlyAttrs : String :=
  "\n        <required>false</required>\n    </fields>"

/-- Attributes of the `'Number'` case (`server.js:189-194`). -/
def numberAttrs : String :=
  "\n        <precision>18</precision>\n        <scale>0</scale>\n        <required>false</required>\n    </fields>"

/-- Attributes of the `'Checkbox'` case (`server.js:196-199`). -/
def checkboxAttrs : String :=
  "\n        <defaultValue>false</defaultValue>\n    </fields>"

/-- Attributes of the `'Picklist'` case (`server.js:201-220`). -/
def picklistAttrs : String :=
  "\n        <valueSet>\n            <restricted>true</restricted>\n            <valueSetDefinition>\n                <sorted>false</sorted>\n                <value>\n                    <fullName>Option 1</fullName>\n                    <default>false</default>\n                    <label>Option 1</label>\n                </value>\n                <value>\n                    <fullName>Option 2</fullName>\n                    <default>false</default>\n                    <label>Option 2</label>\n                </value>\n            </valueSetDefinition>\n        </valueSet>\n        <required>false</required>\n    </fields>"

/-- `generateFieldXml` (`server.js:159-228`): `baseXml` is built first,
coercing the looked-up value into the type tag; the switch compares the
raw value with `===` against the seven case strings (an inherited
non-string value matches none), defaulting to the short-text
attributes. -/
def generateFieldXml (field : Field) (fieldType : JsVal) : String :=
  if fieldType = .str "Text" then fieldBase field fieldType.interp ++ shortTextAttrs
  else if fieldType = .str "TextArea" then fieldBase field fieldType.interp ++ longTextAttrs
  else if fieldType = .str "Date" then fieldBase field fieldType.interp ++ requiredOnlyAttrs
  else if fieldType = .str "DateTime" then fieldBase field fieldType.interp ++ requiredOnlyAttrs
  else if fieldType = .str "Number" then fieldBase field fieldType.interp ++ numberAttrs
  else if fieldType = .str "Checkbox" then fieldBase field fieldType.interp ++ checkboxAttrs
  else if fieldType = .str "Picklist" then fieldBase field fieldType.interp ++ picklistAttrs
  else fieldBase field fieldType.interp ++ shortTextAttrs

/-- `generateObjectMetadata` (`server.js:121-142`), the object descriptor
template, written as the concatenation of its literal parts and the
interpolated `objectName` occurrences.  The `fields` argument is unused by
the source function as well. -/
def generateObjectMetadata (objectName : String) (_fields : List Field) : String :=
  "<?xml version=\"1.0\" encoding=\"UTF-8\"?>\n<CustomObject xmlns=\"http://soap.sforce.com/2006/04/metadata\">\n    <fullName>" ++
  objectName ++ "__c</fullName>\n    <label>" ++ objectName ++
  "</label>\n    " ++ ("<pluralLabel>" ++ (objectName ++ "s") ++ "</pluralLabel>") ++
  "\n    <nameField>\n        <type>AutoNumber</type>\n        <label>" ++
  objectName ++ " Number</label>\n        <displayFormat>" ++ objectName ++
  "-{0000}</displayFormat>\n    </nameField>\n    <sharingModel>ReadWrite</sharingModel>\n    <enableSharing>true</enableSharing>\n    <enableBulkApi>true</enableBulkApi>\n    <enableStreamingApi>true</enableStreamingApi>\n    <enableReports>true</enableReports>\n    <enableSearch>true</enableSearch>\n    <enableHistory>false</enableHistory>\n    <enableActivities>true</enableActivities>\n    <deploymentStatus>Deployed</deploymentStatus>\n</CustomObject>"

/-- `generateFieldsMetadata` (`server.js:145-156`): map each field through
type resolution and fragment generation, join with newlines, wrap. -/
def generateFieldsMetadata (fields : List Field) : String :=
  let fieldElements :=
    String.intercalate "\n"
      (fields.map (fun field => generateFieldXml field (getFieldType field.type)))
  "<?xml version=\"1.0\" encoding=\"UTF-8\"?>\n<CustomObject xmlns=\"http://soap.sforce.com/2006/04/metadata\">\n" ++
  fieldElements ++ "\n</CustomObject>"

/-- `generatePackageXml` (`server.js:249-258`), written as the
concatenation of its literal parts and the interpolated `objectName`. -/
def generatePackageXml (objectName : String) : String :=
  "<?xml version=\"1.0\" encoding=\"UTF-8\"?>\n<Package xmlns=\"http://soap.sforce.com/2006/04/metadata\">\n    <types>\n        " ++
  ("<members>" ++ (objectName ++ "__c") ++ "</members>") ++
  "\n        <name>CustomObject</name>\n    </types>\n    <version>58.0</version>\n</Package>"

/-- A file-system / subprocess action of the handler, in order. -/
inductive FsEffect where
  | removeDirIfExists (dir : String)
  | mkdirRecursive (dir : String)
  | writeFile (filePath content : String)
  | execCommand (cmd : String)
deriving DecidableEq

/-- Outcome of the `exec` callback (`server.js:89`): `error` is the
optional `error.message`, plus the captured stdout and stderr. -/
structure DeployOutcome where
  error : Option String
  stdout : String
  stderr : String
deriving DecidableEq

/-- The JSON responses the handler can emit. -/
inductive HandlerResponse where
  | badRequest (error message : String)
  | deployFailed (error message details : String)
  | success (message objectName : String) (fields : List FieldEntry) (output : String)
  | internalError (error message : String)
deriving DecidableEq

/-- The HTTP status attached to each response shape. -/
def HandlerResponse.status : HandlerResponse → Nat
  | .badRequest .. => 400
  | .deployFailed .. => 500
  | .success .. => 200
  | .internalError .. => 500

/-- `const metadataDir = './mdapioutput'` (`server.js:56`). -/
def metadataDir : String := "./mdapioutput"

/-- `path.join(metadataDir, 'unpackaged', 'objects')` (`server.js:57`),
without `./`-normalisation. -/
def objectDir : String := metadataDir ++ "/unpackaged/objects"

/-- The deploy command string of `server.js:87`. -/
def deployCommand (orgAlias : String) : String :=
  "sfdx force:mdapi:deploy -d " ++ metadataDir ++ "/unpackaged -u " ++
  orgAlias ++ " --wait 10 --verbose"

/-- Raw field entry to generator field: after validation every member is a
present non-empty string; `getD` is only the totalisation. -/
def toField (e : FieldEntry) : Field :=
  ⟨e.name.getD "", e.label.getD "", e.type.getD ""⟩

/-- The `/create-metadata` handler (`server.js:24-115`) up to the `exec`
callback, as a function of the body and of the deploy outcome: the
response sent, and the ordered list of file-system / subprocess effects
performed.  A validation failure responds 400 with no effects. -/
def createMetadataHandler (b : Body) (deploy : DeployOutcome) :
    HandlerResponse × List FsEffect :=
  match validateRequest b with
  | some msg => (.badRequest "Bad Request" msg, [])
  | none =>
    let objectName := b.objectName.getD ""
    let fields := bodyEntries b
    let objectMetadata := generateObjectMetadata objectName (fields.map toField)
    let fieldsMetadata := generateFieldsMetadata (fields.map toField)
    let packageXml := generatePackageXml objectName
    let effects : List FsEffect :=
      [.removeDirIfExists metadataDir,
       .mkdirRecursive objectDir,
       .writeFile (objectDir ++ "/" ++ objectName ++ "__c.object-meta.xml") objectMetadata,
       .writeFile (objectDir ++ "/" ++ objectName ++ "__c.fields-meta.xml") fieldsMetadata,
       .writeFile (metadataDir ++ "/unpackaged/package.xml") packageXml,
       .execCommand (deployCommand (b.orgAlias.getD ""))]
    let response : HandlerResponse :=
      match deploy.error with
      | some errMsg =>
        .deployFailed "Deployment Failed"
          (if deploy.stderr = "" then errMsg else deploy.stderr) deploy.stdout
      | none =>
        .success "Metadata created and deployed successfully" objectName
          fields deploy.stdout
    (response, effects)

/-- The `catch` branch of the handler (`server.js:108-114`): a thrown
error before completion yields this 500 response. -/
def internalErrorResponse (msg : String) : HandlerResponse :=
  .internalError "Internal Server Error" msg

/-- Does `pat` occur at the head of `l`? -/
def leadsWith : List Char → List Char → Bool
  | [], _ => true
  | _ :: _, [] => false
  | a :: as, b :: bs => a == b && leadsWith as bs

/-- Number of (possibly overlapping) occurrences of `pat` in `l`. -/
def countOcc (pat : List Char) : List Char → Nat
  | [] => 0
  | c :: rest => (if leadsWith pat (c :: rest) then 1 else 0) + countOcc pat rest

/-- Occurrences of the pattern string inside `s`. -/
def countOccS (pat s : String) : Nat :=
  countOcc pat.data s.data

/-- A body with present non-empty `objectName` and `orgAlias` and an
empty `fields` array. -/
def emptyFieldsBody : Body :=
  ⟨some "Account", some (.arr []), some "myorg"⟩

/-- A deploy outcome where the subprocess exits without error. -/
def okDeploy : DeployOutcome := ⟨none, "", ""⟩

/-- The validator of §4.1, with the four checks sequenced exactly as the
claim orders them — (a) object name, (b) fields present and an array,
(c) environment identifier, (d) per-field structure — first failure
short-circuiting.  Stated from the claim's words, for comparison with
`validateRequest`. -/
def specOrderedValidate (b : Body) : Option String :=
  if !truthy b.objectName then
    some "Object name and fields array are required"
  else if !isFieldsArray b.fields then
    some "Object name and fields array are required"
  else if !truthy b.orgAlias then
    some "orgAlias is required"
  else if (bodyEntries b).any entryBad then
    some "Each field must have name, label, and type properties"
  else
    none

/-- A body whose `fields` member is present but not an array. -/
def badFieldsBody : Body := ⟨some "Account", some .nonArray, some "org"⟩

/-- A body missing `orgAlias` but with valid `objectName` and `fields`. -/
def noOrgBody : Body :=
  ⟨some "Account", some (.arr [⟨some "Location", some "Location", some "Text"⟩]), none⟩

/-- C1 counterexample: a request body with `objectName` and `orgAlias`
present non-empty strings and `fields` the empty array is not rejected —
validation passes (an empty JavaScript array is truthy and is an array),
the handler performs its file-system effects and responds 200 on a
successful deploy, not 400. -/
theorem empty_fields_body_not_rejected :
    validateRequest emptyFieldsBody = none ∧
    (createMetadataHandler emptyFieldsBody okDeploy).1.status = 200 ∧
    (createMetadataHandler emptyFieldsBody okDeploy).2 ≠ [] := by
  decide

/-- C1 (amended): for every request body in which `objectName` and
`orgAlias` are present non-empty strings and `fields` is an empty array,
the validator passes the request (no 400), and the empty-fields
definition is passed downstream to descriptor generation — the handler
writes the fields descriptor generated from the empty field list. -/
theorem validateRequest_accepts_empty_fields (b : Body)
    (hn : truthy b.objectName = true)
    (hf : b.fields = some (.arr []))
    (ho : truthy b.orgAlias = true) :
    validateRequest b = none ∧
    ∀ d : DeployOutcome,
      FsEffect.writeFile
          (objectDir ++ "/" ++ (b.objectName.getD "") ++ "__c.fields-meta.xml")
          (generateFieldsMetadata []) ∈ (createMetadataHandler b d).2 := by
  have hval : validateRequest b = none := by
    simp [validateRequest, hn, ho, hf, isFieldsArray, bodyEntries]
  refine ⟨hval, fun d => ?_⟩
  simp [createMetadataHandler, hval, bodyEntries, hf]

/-- Witness for C1 (amended) at the concrete empty-fields body. -/
theorem validateRequest_accepts_empty_fields_witness :
    validateRequest emptyFieldsBody = none ∧
    FsEffect.writeFile (objectDir ++ "/" ++ "Account" ++ "__c.fields-meta.xml")
        (generateFieldsMetadata []) ∈ (createMetadataHandler emptyFieldsBody okDeploy).2 := by
  have h := validateRequest_accepts_empty_fields emptyFieldsBody rfl rfl rfl
  exact ⟨h.1, h.2 okDeploy⟩

/-- C3: the validator is observationally the claim's ordered sequence of
checks — it agrees everywhere with `specOrderedValidate`; in particular a
request missing only `orgAlias` fails with the environment-identifier
message; and a failing validation never reaches descriptor generation or
any effect. -/
theorem validateRequest_order_eq_spec (b : Body) :
    validateRequest b = specOrderedValidate b ∧
    (truthy b.objectName = true → isFieldsArray b.fields = true →
      truthy b.orgAlias = false →
      validateRequest b = some "orgAlias is required") ∧
    (∀ d : DeployOutcome, validateRequest b ≠ none →
      (createMetadataHandler b d).2 = []) := by
  refine ⟨?_, ?_, ?_⟩
  · simp only [validateRequest, specOrderedValidate]
    by_cases h1 : truthy b.objectName <;>
      by_cases h2 : isFieldsArray b.fields <;> simp [h1, h2]
  · intro hn hf ho
    simp [validateRequest, hn, hf, ho]
  · intro d h
    cases hv : validateRequest b with
    | some msg => simp [createMetadataHandler, hv]
    | none => exact absurd hv h

/-- Witness for C3 at the body missing only `orgAlias`. -/
theorem validateRequest_order_eq_spec_witness :
    validateRequest noOrgBody = specOrderedValidate noOrgBody ∧
    validateRequest noOrgBody = some "orgAlias is required" ∧
    (createMetadataHandler noOrgBody okDeploy).2 = [] := by
  have h := validateRequest_order_eq_spec noOrgBody
  exact ⟨h.1, h.2.1 (by decide) (by decide) (by decide),
    h.2.2 okDeploy (by decide)⟩

/-- C4: every request failing validation gets a 400 bad-request response
and the handler performs no file-system writes, no directory
deletion/creation and no subprocess call — the effect list is empty. -/
theorem validation_failure_is_400_no_effects (b : Body) (d : DeployOutcome)
    (h : (validateRequest b).isSome) :
    (createMetadataHandler b d).1.status = 400 ∧
    (createMetadataHandler b d).2 = [] ∧
    ∃ msg, (createMetadataHandler b d).1 = .badRequest "Bad Request" msg := by
  cases hv : validateRequest b with
  | none => rw [hv] at h; simp at h
  | some msg =>
    refine ⟨?_, ?_, msg, ?_⟩ <;> simp [createMetadataHandler, hv, HandlerResponse.status]

/-- Witness for C4 at the non-array-`fields` body. -/
theorem validation_failure_is_400_no_effects_witness :
    (createMetadataHandler badFieldsBody okDeploy).1.status = 400 ∧
    (createMetadataHandler badFieldsBody okDeploy).2 = [] ∧
    ∃ msg, (createMetadataHandler badFieldsBody okDeploy).1 = .badRequest "Bad Request" msg :=
  validation_failure_is_400_no_effects badFieldsBody okDeploy (by decide)

/-- A fully valid request body. -/
def okBody : Body :=
  ⟨some "Beat_Plan", some (.arr [⟨some "Location", some "Location", some "Text"⟩]),
   some "x"⟩

/-- A deploy outcome where the subprocess reports an error with empty
stderr and some partial stdout. -/
def errDeploy : DeployOutcome := ⟨some "boom", "partial out", ""⟩

/-- One field of each of the seven documented recognized types. -/
def sevenTypesFields : List Field :=
  [⟨"A1", "A1", "Text"⟩, ⟨"A2", "A2", "TextArea"⟩, ⟨"A3", "A3", "Date"⟩,
   ⟨"A4", "A4", "DateTime"⟩, ⟨"A5", "A5", "Number"⟩, ⟨"A6", "A6", "Checkbox"⟩,
   ⟨"A7", "A7", "Picklist"⟩]

/-- C5: on a validated request, a subprocess exit without error yields the
200 success response echoing the object name, the field list and the
captured stdout; a subprocess error yields the 500 deploy-failed response
carrying stderr — or the error message when stderr is empty — plus the
partial stdout, and 500 is distinct from the validation status 400; a
throw before completion yields the 500 internal-error response. -/
theorem deploy_outcome_response (b : Body) (d : DeployOutcome)
    (h : validateRequest b = none) :
    (d.error = none →
      (createMetadataHandler b d).1 =
        .success "Metadata created and deployed successfully"
          (b.objectName.getD "") (bodyEntries b) d.stdout ∧
      (createMetadataHandler b d).1.status = 200) ∧
    (∀ e, d.error = some e →
      (createMetadataHandler b d).1 =
        .deployFailed "Deployment Failed"
          (if d.stderr = "" then e else d.stderr) d.stdout ∧
      (createMetadataHandler b d).1.status = 500 ∧
      (createMetadataHandler b d).1.status ≠ 400) ∧
    (∀ msg, (internalErrorResponse msg).status = 500) := by
  refine ⟨?_, ?_, fun msg => rfl⟩
  · intro he
    simp [createMetadataHandler, h, he, HandlerResponse.status]
  · intro e he
    simp [createMetadataHandler, h, he, HandlerResponse.status]

/-- Witness for C5: the valid body against a clean deploy and against a
failing deploy with empty stderr (message falls back to the error text). -/
theorem deploy_outcome_response_witness :
    (createMetadataHandler okBody okDeploy).1 =
      .success "Metadata created and deployed successfully" "Beat_Plan"
        [⟨some "Location", some "Location", some "Text"⟩] "" ∧
    (createMetadataHandler okBody errDeploy).1 =
      .deployFailed "Deployment Failed" "boom" "partial out" ∧
    (createMetadataHandler okBody errDeploy).1.status = 500 := by
  have h1 := (deploy_outcome_response okBody okDeploy (by decide)).1 rfl
  have h2 := (deploy_outcome_response okBody errDeploy (by decide)).2.1 "boom" rfl
  exact ⟨h1.1, by simpa using h2.1, h2.2.1⟩

/-- C6: descriptor generation is deterministic — identical inputs produce
byte-identical object descriptor, fields descriptor and deployment
manifest. -/
theorem generation_deterministic (n₁ n₂ : String) (fs₁ fs₂ : List Field)
    (hn : n₁ = n₂) (hf : fs₁ = fs₂) :
    generateObjectMetadata n₁ fs₁ = generateObjectMetadata n₂ fs₂ ∧
    generateFieldsMetadata fs₁ = generateFieldsMetadata fs₂ ∧
    generatePackageXml n₁ = generatePackageXml n₂ := by
  subst hn; subst hf
  exact ⟨rfl, rfl, rfl⟩

/-- Witness for C6 at a field list covering all seven documented
recognized types. -/
theorem generation_deterministic_witness :
    generateObjectMetadata "Obj" sevenTypesFields =
      generateObjectMetadata "Obj" sevenTypesFields ∧
    generateFieldsMetadata sevenTypesFields =
      generateFieldsMetadata sevenTypesFields ∧
    generatePackageXml "Obj" = generatePackageXml "Obj" :=
  generation_deterministic "Obj" "Obj" sevenTypesFields sevenTypesFields rfl rfl

set_option maxRecDepth 8192 in
/-- C2 counterexample: `"toString"` is not in the recognized set, yet
type resolution does not yield `Text` — the property access finds the
inherited truthy `Object.prototype.toString`, so the `|| 'Text'`
fallback never fires — and the generated fragment is not the short-text
template with type tag `Text`: it carries the coerced inherited value as
its type tag (with the default short-text attributes). -/
theorem proto_member_bypasses_fallback :
    "toString" ∉ typeMap.map Prod.fst ∧
    getFieldType "toString" ≠ .str "Text" ∧
    getFieldType "toString" = .inheritedProp "toString" ∧
    generateFieldXml ⟨"Notes", "Notes", "toString"⟩ (getFieldType "toString") ≠
      fieldBase ⟨"Notes", "Notes", "toString"⟩ "Text" ++ shortTextAttrs ∧
    generateFieldXml ⟨"Notes", "Notes", "toString"⟩ (getFieldType "toString") =
      fieldBase ⟨"Notes", "Notes", "toString"⟩ (inheritedInterp "toString") ++
        shortTextAttrs := by
  decide

/-- C2 (amended): every type string neither in the mapping table nor the
name of an `Object.prototype` member resolves to `Text`, and its
fragment is exactly the short-text template — type tag `Text`,
length 255, required false, nothing else; an `Object.prototype` member
name resolves to the inherited truthy value instead, and its fragment
carries that value's coercion as its type tag, with the short-text
attributes. -/
theorem unrecognized_type_is_short_text (t : String)
    (h : t ∉ typeMap.map Prod.fst) (hp : t ∉ protoKeys) :
    getFieldType t = .str "Text" ∧
    (∀ f : Field, generateFieldXml f (getFieldType t) =
      fieldBase f "Text" ++ shortTextAttrs) ∧
    (∀ k ∈ protoKeys, getFieldType k = .inheritedProp k ∧
      ∀ f : Field, generateFieldXml f (getFieldType k) =
        fieldBase f (inheritedInterp k) ++ shortTextAttrs) := by
  simp only [typeMap, List.map, List.mem_cons, List.not_mem_nil, or_false,
    not_or] at h
  obtain ⟨h1, h2, h3, h4, h5, h6, h7, h8, h9, h10⟩ := h
  have e1 : (t == "Text") = false := beq_eq_false_iff_ne.mpr h1
  have e2 : (t == "TextArea") = false := beq_eq_false_iff_ne.mpr h2
  have e3 : (t == "Date") = false := beq_eq_false_iff_ne.mpr h3
  have e4 : (t == "DateTime") = false := beq_eq_false_iff_ne.mpr h4
  have e5 : (t == "Number") = false := beq_eq_false_iff_ne.mpr h5
  have e6 : (t == "Checkbox") = false := beq_eq_false_iff_ne.mpr h6
  have e7 : (t == "Picklist") = false := beq_eq_false_iff_ne.mpr h7
  have e8 : (t == "Email") = false := beq_eq_false_iff_ne.mpr h8
  have e9 : (t == "Phone") = false := beq_eq_false_iff_ne.mpr h9
  have e10 : (t == "URL") = false := beq_eq_false_iff_ne.mpr h10
  have ht : getFieldType t = .str "Text" := by
    simp [getFieldType, typeMap, List.lookup, hp,
      e1, e2, e3, e4, e5, e6, e7, e8, e9, e10]
  refine ⟨ht, fun f => ?_, fun k hk => ⟨?_, fun f => ?_⟩⟩
  · rw [ht]
    simp [generateFieldXml, JsVal.interp]
  · revert hk
    revert k
    decide
  · have hik : getFieldType k = .inheritedProp k := by
      revert hk
      revert k
      decide
    rw [hik]
    simp [generateFieldXml, JsVal.interp]

/-- Witness for C2 (amended) at the plainly unrecognized type string
`"Geolocation"` and the prototype-member name `"toString"`. -/
theorem unrecognized_type_is_short_text_witness :
    getFieldType "Geolocation" = .str "Text" ∧
    generateFieldXml ⟨"Loc", "Loc", "Geolocation"⟩ (getFieldType "Geolocation") =
      fieldBase ⟨"Loc", "Loc", "Geolocation"⟩ "Text" ++ shortTextAttrs ∧
    getFieldType "toString" = .inheritedProp "toString" ∧
    generateFieldXml ⟨"Notes", "Notes", "toString"⟩ (getFieldType "toString") =
      fieldBase ⟨"Notes", "Notes", "toString"⟩ (inheritedInterp "toString") ++
        shortTextAttrs := by
  have h := unrecognized_type_is_short_text "Geolocation" (by decide) (by decide)
  exact ⟨h.1, h.2.1 ⟨"Loc", "Loc", "Geolocation"⟩,
    (h.2.2 "toString" (by decide)).1,
    (h.2.2 "toString" (by decide)).2 ⟨"Notes", "Notes", "toString"⟩⟩

/-- C7: for every object name, the generated object descriptor carries a
`pluralLabel` element whose content is the object name with `"s"`
appended — the naive pluralization, applied uniformly. -/
theorem object_descriptor_plural_label (n : String) (fields : List Field) :
    ∃ pre post, generateObjectMetadata n fields =
      pre ++ ("<pluralLabel>" ++ (n ++ "s") ++ "</pluralLabel>") ++ post := by
  refine ⟨"<?xml version=\"1.0\" encoding=\"UTF-8\"?>\n<CustomObject xmlns=\"http://soap.sforce.com/2006/04/metadata\">\n    <fullName>" ++
    n ++ "__c</fullName>\n    <label>" ++ n ++ "</label>\n    ",
    "\n    <nameField>\n        <type>AutoNumber</type>\n        <label>" ++
    n ++ " Number</label>\n        <displayFormat>" ++ n ++
    "-{0000}</displayFormat>\n    </nameField>\n    <sharingModel>ReadWrite</sharingModel>\n    <enableSharing>true</enableSharing>\n    <enableBulkApi>true</enableBulkApi>\n    <enableStreamingApi>true</enableStreamingApi>\n    <enableReports>true</enableReports>\n    <enableSearch>true</enableSearch>\n    <enableHistory>false</enableHistory>\n    <enableActivities>true</enableActivities>\n    <deploymentStatus>Deployed</deploymentStatus>\n</CustomObject>",
    ?_⟩
  simp only [generateObjectMetadata, String.append_assoc]

set_option maxRecDepth 8192 in
/-- C8: a field whose type resolves to `Picklist` generates the picklist
fragment: a restricted value set with exactly two value entries, named
`Option 1` and `Option 2`, and no entry marked default. -/
theorem picklist_fragment (f : Field) (h : getFieldType f.type = .str "Picklist") :
    generateFieldXml f (getFieldType f.type) =
      fieldBase f "Picklist" ++ picklistAttrs ∧
    countOccS "<restricted>true</restricted>" picklistAttrs = 1 ∧
    countOccS "<fullName>Option " picklistAttrs = 2 ∧
    countOccS "<fullName>Option 1</fullName>" picklistAttrs = 1 ∧
    countOccS "<fullName>Option 2</fullName>" picklistAttrs = 1 ∧
    countOccS "<default>false</default>" picklistAttrs = 2 ∧
    countOccS "<default>true" picklistAttrs = 0 := by
  rw [h]
  refine ⟨?_, by decide, by decide, by decide, by decide, by decide, by decide⟩
  simp [generateFieldXml, JsVal.interp]

/-- Witness for C8 at a concrete picklist field. -/
theorem picklist_fragment_witness :
    generateFieldXml ⟨"Priority", "Priority", "Picklist"⟩ (getFieldType "Picklist") =
      fieldBase ⟨"Priority", "Priority", "Picklist"⟩ "Picklist" ++ picklistAttrs ∧
    countOccS "<default>false</default>" picklistAttrs = 2 := by
  have h := picklist_fragment ⟨"Priority", "Priority", "Picklist"⟩ (by decide)
  exact ⟨h.1, h.2.2.2.2.2.1⟩

/-- C9: the deployment manifest declares exactly one member — the object
name with suffix `__c` — under the single type category `CustomObject`,
and carries the fixed schema version `58.0`: the document splits around
one `members` element, with no other `members` occurrence on either side,
one `types` element opening, and the fixed name and version in the tail. -/
theorem package_xml_single_member (n : String) :
    ∃ pre post, generatePackageXml n =
      pre ++ ("<members>" ++ (n ++ "__c") ++ "</members>") ++ post ∧
      countOccS "<members>" pre = 0 ∧
      countOccS "<members>" post = 0 ∧
      countOccS "</members>" post = 0 ∧
      countOccS "<types>" pre = 1 ∧
      countOccS "<name>CustomObject</name>" post = 1 ∧
      countOccS "<version>58.0</version>" post = 1 := by
  refine ⟨"<?xml version=\"1.0\" encoding=\"UTF-8\"?>\n<Package xmlns=\"http://soap.sforce.com/2006/04/metadata\">\n    <types>\n        ",
    "\n        <name>CustomObject</name>\n    </types>\n    <version>58.0</version>\n</Package>",
    rfl, by decide, by decide, by decide, by decide, by decide, by decide⟩

/-- C10: the type strings `Email`, `Phone` and `URL` are in the mapping
table, resolving to `Email`, `Phone` and `Url`; none of them is a switch
case of `generateFieldXml`, so each generates the default short-text
attribute set (length 255, required false) under its own type tag, which
the base fragment embeds as `<type>…</type>`. -/
theorem email_phone_url_recognized :
    getFieldType "Email" = .str "Email" ∧ getFieldType "Phone" = .str "Phone" ∧
    getFieldType "URL" = .str "Url" ∧
    (∀ f : Field, generateFieldXml f (getFieldType "Email") =
      fieldBase f "Email" ++ shortTextAttrs) ∧
    (∀ f : Field, generateFieldXml f (getFieldType "Phone") =
      fieldBase f "Phone" ++ shortTextAttrs) ∧
    (∀ f : Field, generateFieldXml f (getFieldType "URL") =
      fieldBase f "Url" ++ shortTextAttrs) ∧
    (∀ (f : Field) (t : String), ∃ pre,
      fieldBase f t = pre ++ ("<type>" ++ t ++ "</type>")) := by
  have he : getFieldType "Email" = .str "Email" := by decide
  have hp : getFieldType "Phone" = .str "Phone" := by decide
  have hu : getFieldType "URL" = .str "Url" := by decide
  refine ⟨he, hp, hu,
    fun f => by rw [he]; simp [generateFieldXml, JsVal.interp],
    fun f => by rw [hp]; simp [generateFieldXml, JsVal.interp],
    fun f => by rw [hu]; simp [generateFieldXml, JsVal.interp],
    fun f t => ⟨"    <fields>\n        <fullName>" ++ f.name ++
      "__c</fullName>\n        <label>" ++ f.label ++ "</label>\n        ", rfl⟩⟩

end SfMeta
